import Mathlib

/-!
Shallow embedding of the vidcore backend's session-credential lifecycle
(user.controller / auth.middleware / user.model) and its relationship-graph
read queries (getUserChannelProfile, getWatchHistory), with theorems checking
the natural-language specification against this code.

Conventions used throughout:
* Mongo ObjectIds are modelled as `Nat`.
* JWTs are structured values rather than signed strings; byte-for-byte string
  equality of tokens becomes structural equality.  A signed token embeds an
  `iat` issue counter (jsonwebtoken's issued-at claim): the database model
  carries a monotonically increasing counter `nonce` standing for the clock,
  so two tokens minted by distinct mint calls are distinct values, as they
  are on the wire once the clock has advanced.
* bcrypt is an external library (not part of this repository's sources); it
  is modelled by its contract: `compare plain h` succeeds exactly when
  `plain` is the string that was hashed into `h`.  The salt is irrelevant to
  every claim considered here, so the hash is represented by the plaintext it
  was derived from, wrapped in a distinct type so it can never be confused
  with a plaintext password elsewhere.
* JavaScript `undefined`/missing values become `Option.none`; JS falsiness of
  strings (`"" || x`) is modelled explicitly where the code relies on it.
* An Express `ApiError(status, message)` becomes `ApiErr`; a handler that can
  throw returns `Except ApiErr`.
-/

deriving instance DecidableEq for Except

/-- `ApiError(statusCode, message)` from utils/ApiError.js: the status code
and human-readable message that reach the client. -/
structure ApiErr where
  status : Nat
  message : String
deriving DecidableEq, Repr

/-- Modelled bcrypt contract (bcrypt is an external dependency, not in this
repository): the stored hash is represented by the plaintext it hashed;
`bcryptCompare` succeeds iff the candidate equals that plaintext. -/
structure BHash where
  plain : String
deriving DecidableEq, Repr

/-- `bcrypt.compare(password, this.password)` from user.model.js
`isPasswordCorrect`. -/
def bcryptCompare (password : String) (h : BHash) : Bool :=
  password == h.plain

/-- Payload of `generateAccessToken` in user.model.js: `_id`, `email`,
`username`, `fullName`, signed with the access secret; `iat` is the
issued-at claim jsonwebtoken adds. -/
structure AccessToken where
  _id : Nat
  email : String
  username : String
  fullName : String
  iat : Nat
deriving DecidableEq, Repr

/-- Payload of `generateRefreshToken` in user.model.js: only `_id`, signed
with the refresh secret; `iat` is the issued-at claim jsonwebtoken adds. -/
structure RefreshToken where
  _id : Nat
  iat : Nat
deriving DecidableEq, Repr

/-- One document of the `users` collection (user.model.js schema), restricted
to the fields the controllers under study read or write.  `refreshToken` is
`none` when the field is unset (`$unset` on logout leaves no field, and a
fresh account has none). -/
structure Account where
  _id : Nat
  username : String
  email : String
  fullName : String
  avatar : String
  coverImage : String
  watchHistory : List Nat
  password : BHash
  refreshToken : Option RefreshToken
deriving DecidableEq, Repr

/-- The persistent state: the `users` collection plus the issue-counter
`nonce` modelling the jsonwebtoken `iat` clock, which advances across mint
calls. -/
structure DB where
  users : List Account
  nonce : Nat
deriving DecidableEq, Repr

/-- `User.findById(id)`: first document whose `_id` matches. -/
def findById (users : List Account) (uid : Nat) : Option Account :=
  users.find? (fun u => u._id == uid)

/-- Write-back of a changed `refreshToken` field for the account with the
given `_id` (covers both `user.save()` after assigning `user.refreshToken`
and `findByIdAndUpdate` with `$unset: { refreshToken: 1 }`). -/
def setRefresh (users : List Account) (uid : Nat) (r : Option RefreshToken) :
    List Account :=
  users.map (fun u => if u._id == uid then { u with refreshToken := r } else u)

/-- `generateAccessAndRefereshTokens(userId)` (user.controller.js lines
10-43): look the user up, mint an access and a refresh token, store the
refresh token on the user and save.  Any failure inside (user not found, so
that `user.generateAccessToken()` throws) is caught and becomes
`ApiError(500, ...)`. -/
def generateAccessAndRefereshTokens (db : DB) (userId : Nat) :
    Except ApiErr (AccessToken × RefreshToken × DB) :=
  match findById db.users userId with
  | none =>
      .error ⟨500, "Something went wrong while generating refresh and access token"⟩
  | some u =>
      let accessToken : AccessToken := ⟨u._id, u.email, u.username, u.fullName, db.nonce⟩
      let refreshToken : RefreshToken := ⟨u._id, db.nonce⟩
      .ok (accessToken, refreshToken,
           ⟨setRefresh db.users u._id (some refreshToken), db.nonce + 1⟩)

/-- Projection `.select("-password -refreshToken")`: every stored field
except the password hash and the refresh credential. -/
structure PublicUser where
  _id : Nat
  username : String
  email : String
  fullName : String
  avatar : String
  coverImage : String
  watchHistory : List Nat
deriving DecidableEq, Repr

/-- `.select("-password -refreshToken")` applied to an account. -/
def sanitizeUser (u : Account) : PublicUser :=
  ⟨u._id, u.username, u.email, u.fullName, u.avatar, u.coverImage, u.watchHistory⟩

/-- JS string falsiness: `undefined` and `""` are falsy. -/
def jsStrFalsy (o : Option String) : Bool :=
  match o with
  | none => true
  | some s => s.isEmpty

/-- Body of a successful login response (user.controller.js lines 222-236):
status, the sanitized account projection, and both freshly minted
credentials (also set as cookies with the same values). -/
structure LoginResponse where
  status : Nat
  user : Option PublicUser
  accessToken : AccessToken
  refreshToken : RefreshToken
deriving DecidableEq, Repr

/-- `loginUser` (user.controller.js lines 170-255).  The `findOne` over
`$or: [{username}, {email}]` is modelled as: match on whichever of the two
fields was supplied.  (Mongoose strips `undefined`-valued keys from query
filters; no claim under study depends on the behaviour of the absent
branch, and the guard requires at least one field to be present.) -/
def loginUser (db : DB) (username email : Option String) (password : String) :
    Except ApiErr (LoginResponse × DB) :=
  if jsStrFalsy username && jsStrFalsy email then
    .error ⟨400, "username or email is required"⟩
  else
    match db.users.find? (fun u =>
        (match username with | some s => u.username == s | none => false) ||
        (match email with | some s => u.email == s | none => false)) with
    | none => .error ⟨404, "User does not exist"⟩
    | some u =>
        if !(bcryptCompare password u.password) then
          .error ⟨401, "Invalid user credentials"⟩
        else
          match generateAccessAndRefereshTokens db u._id with
          | .error e => .error e
          | .ok (accessToken, refreshToken, db1) =>
              .ok (⟨200, (findById db1.users u._id).map sanitizeUser,
                    accessToken, refreshToken⟩, db1)

/-- `logoutUser` (user.controller.js lines 257-302): `findByIdAndUpdate`
with `$unset: { refreshToken: 1 }`, then an unconditional 200. -/
def logoutUser (db : DB) (uid : Nat) : Nat × DB :=
  (200, ⟨setRefresh db.users uid none, db.nonce⟩)

/-- What the transport hands `refreshAccessToken` as
`req.cookies.refreshToken || req.body.refreshToken`: either a string that
verifies under the refresh secret (necessarily one this server signed,
carrying its payload), or any other string, on which `jwt.verify` throws
with the given library message (e.g. a stale-signature, expiry or parse
message). -/
inductive RefreshCred where
  | signed (t : RefreshToken)
  | invalid (msg : String)
deriving DecidableEq, Repr

/-- Body of a successful refresh response (user.controller.js lines
347-357).  The `refreshToken` JSON field and cookie are both set from the
local `newRefreshToken`, which the source destructures from a function
returning a field named `refreshToken` — so it is `undefined` (`none`): the
newly minted refresh credential is stored but never sent to the client. -/
structure RefreshResponse where
  status : Nat
  accessToken : AccessToken
  refreshToken : Option RefreshToken
deriving DecidableEq, Repr

/-- The `try` block of `refreshAccessToken` (user.controller.js lines
316-357): verify the incoming credential, resolve its subject, compare
byte-for-byte against the stored `refreshToken`, and on match mint and
store a fresh pair.  `const { accessToken, newRefreshToken } = await
generateAccessAndRefereshTokens(...)` binds `newRefreshToken` to
`undefined`, because the function's returned object names that field
`refreshToken`; the response therefore carries `none` in its
`refreshToken` slot. -/
def refreshTryBody (db : DB) (cred : RefreshCred) :
    Except ApiErr (RefreshResponse × DB) :=
  match cred with
  | .invalid msg => .error ⟨401, msg⟩
  | .signed t =>
      match findById db.users t._id with
      | none => .error ⟨401, "Invalid refresh token"⟩
      | some u =>
          if some t != u.refreshToken then
            .error ⟨401, "Refresh token is expired or used"⟩
          else
            match generateAccessAndRefereshTokens db u._id with
            | .error e => .error e
            | .ok (accessToken, _newRefreshToken, db1) =>
                .ok (⟨200, accessToken, none⟩, db1)

/-- `refreshAccessToken` (user.controller.js lines 304-386): a missing
credential is rejected before the `try`; everything thrown inside the
`try` is re-thrown by the `catch` as
`ApiError(401, error?.message || "Invalid refresh token")`. -/
def refreshAccessToken (db : DB) (incoming : Option RefreshCred) :
    Except ApiErr (RefreshResponse × DB) :=
  match incoming with
  | none => .error ⟨401, "Unauthorized request"⟩
  | some cred =>
      match refreshTryBody db cred with
      | .error e =>
          .error ⟨401, if e.message.isEmpty then "Invalid refresh token" else e.message⟩
      | .ok x => .ok x

/-- `changeCurrentPassword` (user.controller.js lines 388-423): re-verify
the old password via `isPasswordCorrect`, fail 400 otherwise; on success
assign the new password and save, which re-hashes it in the pre-save hook
(user.model.js lines 54-66) since the field was modified.  A missing user
would make `user.isPasswordCorrect` throw a TypeError, surfaced by the
asyncHandler as a 500. -/
def changeCurrentPassword (db : DB) (uid : Nat) (oldPassword newPassword : String) :
    Except ApiErr (Nat × DB) :=
  match findById db.users uid with
  | none => .error ⟨500, "TypeError"⟩
  | some u =>
      if !(bcryptCompare oldPassword u.password) then
        .error ⟨400, "Invalid old password"⟩
      else
        .ok (200,
          ⟨db.users.map (fun v =>
              if v._id == uid then { v with password := ⟨newPassword⟩ } else v),
           db.nonce⟩)

/-- JS `a || b` on (possibly missing) strings: the left side wins unless it
is falsy (`undefined` or `""`). -/
def jsOrS (a b : Option String) : Option String :=
  match a with
  | some s => if s.isEmpty then b else some s
  | none => b

/-- `l` begins with `pat` (character-level helper for the string model). -/
def beginsWith : List Char → List Char → Bool
  | [], _ => true
  | _ :: _, [] => false
  | p :: ps, c :: cs => p == c && beginsWith ps cs

/-- Locate the first occurrence of `pat` in a character list: the text
before it and the text after it, or `none` when `pat` does not occur. -/
def findSplit (pat : List Char) : List Char → Option (List Char × List Char)
  | [] => if pat.isEmpty then some ([], []) else none
  | c :: cs =>
      if beginsWith pat (c :: cs) then some ([], (c :: cs).drop pat.length)
      else
        match findSplit pat cs with
        | some (pre, post) => some (c :: pre, post)
        | none => none

/-- JS `String.prototype.replace` with a plain-string pattern: replace only
the FIRST occurrence of `pat` by `rep` (identity when `pat` is absent). -/
def jsReplaceFirst (s pat rep : String) : String :=
  match findSplit pat.data s.data with
  | none => s
  | some (pre, post) => ⟨pre ++ rep.data ++ post⟩

/-- JS `String.prototype.trim`: strip leading and trailing whitespace. -/
def strTrim (s : String) : String :=
  ⟨((s.data.dropWhile Char.isWhitespace).reverse.dropWhile Char.isWhitespace).reverse⟩

/-- JS `String.prototype.toLowerCase` (ASCII range, which is all the code
relies on for handles). -/
def strLower (s : String) : String :=
  ⟨s.data.map Char.toLower⟩

/-- Numeric value of a decimal digit character. -/
def digitVal (c : Char) : Option Nat :=
  if c.isDigit then some (c.toNat - 48) else none

/-- Parse a non-empty all-digit character list as a `Nat`. -/
def natOfCharsAux : Nat → List Char → Option Nat
  | acc, [] => some acc
  | acc, c :: cs =>
      match digitVal c with
      | some d => natOfCharsAux (acc * 10 + d) cs
      | none => none

/-- Parse a character list as a decimal `Nat` (none when empty or not all
digits). -/
def natOfChars (l : List Char) : Option Nat :=
  match l with
  | [] => none
  | _ => natOfCharsAux 0 l

/-- Split a character list at every `'.'`. -/
def splitOnDot : List Char → List (List Char)
  | [] => [[]]
  | c :: cs =>
      let r := splitOnDot cs
      if c == '.' then [] :: r
      else
        match r with
        | [] => [[c]]
        | g :: gs => (c :: g) :: gs

/-- Wire form of an access credential signed by this server's access secret
(`jwt.sign` in `generateAccessToken`): an opaque string from which `verify`
recovers the payload.  Only the subject id and the issue counter are needed
to decide the claims under study. -/
def signAccessStr (uid iat : Nat) : String :=
  "jwtA." ++ toString uid ++ "." ++ toString iat

/-- `jwt.verify(token, ACCESS_TOKEN_SECRET)` modelled by its contract: it
recovers the payload (here, the subject `_id`) exactly on strings this
server signed with the access secret, and throws on every other string. -/
def verifyAccessStr (s : String) : Except String Nat :=
  match splitOnDot s.data with
  | [tag, a, b] =>
      match natOfChars a, natOfChars b with
      | some uid, some _ =>
          if tag == "jwtA".data then .ok uid else .error "invalid signature"
      | _, _ => .error "invalid signature"
  | _ => .error "invalid signature"

/-- The `try` block of `verifyJWT` (auth.middleware.js lines 14-67): take
the token from the `accessToken` cookie, falling back to the
`Authorization` header with the first `"Bearer "` occurrence removed;
reject a missing token, verify, resolve the subject with
`.select("-password -refreshToken")`, and expose the sanitized user. -/
def verifyJWTTryBody (db : DB) (cookieToken authHeader : Option String) :
    Except ApiErr PublicUser :=
  match jsOrS cookieToken (authHeader.map (fun h => jsReplaceFirst h "Bearer " "")) with
  | none => .error ⟨401, "Unauthorized request - No token found"⟩
  | some tok =>
      if tok.isEmpty then .error ⟨401, "Unauthorized request - No token found"⟩
      else
        match verifyAccessStr tok with
        | .error m => .error ⟨401, m⟩
        | .ok uid =>
            match findById db.users uid with
            | none => .error ⟨401, "Invalid Access Token - User not found"⟩
            | some u => .ok (sanitizeUser u)

/-- `verifyJWT` (auth.middleware.js): anything thrown in the `try` is
re-thrown by the `catch` as
`ApiError(401, error?.message || "Invalid access token")`. -/
def verifyJWT (db : DB) (cookieToken authHeader : Option String) :
    Except ApiErr PublicUser :=
  match verifyJWTTryBody db cookieToken authHeader with
  | .error e =>
      .error ⟨401, if e.message.isEmpty then "Invalid access token" else e.message⟩
  | .ok u => .ok u

/-- One element of `[fullName, email, username, password].some((field) =>
field?.trim() === "")` in `registerUser` (user.controller.js lines 55-59):
for an absent field, `field?.trim()` is `undefined`, and
`undefined === ""` is `false`. -/
def fieldTrimsEmpty (o : Option String) : Bool :=
  match o with
  | some s => strTrim s == ""
  | none => false

/-- The "All fields are required" guard of `registerUser`: fires iff some
supplied field trims to the empty string. -/
def registerFieldsCheck (fullName email username password : Option String) : Bool :=
  [fullName, email, username, password].any fieldTrimsEmpty

/-- One document of the `subscriptions` collection: a directed follow edge
from `subscriber` to `channel`. -/
structure Subscription where
  subscriber : Nat
  channel : Nat
deriving DecidableEq, Repr

/-- The `$project`-ed output of the `getUserChannelProfile` aggregation
(user.controller.js lines 686-696). -/
structure ChannelProfile where
  fullName : String
  username : String
  subscribersCount : Nat
  channelsSubscribedToCount : Nat
  isSubscribed : Bool
  avatar : String
  coverImage : String
  email : String
deriving DecidableEq, Repr

/-- The aggregation pipeline of `getUserChannelProfile` (user.controller.js
lines 619-697): `$match` on the lowercased handle, two `$lookup`s into
`subscriptions` (edges whose `channel` is this user; edges whose
`subscriber` is this user), `$size` counts, the `$in`-based `isSubscribed`
flag (false when `req.user?._id` is undefined), and the `$project`. -/
def channelPipeline (users : List Account) (subs : List Subscription)
    (viewer : Option Nat) (uname : String) : List ChannelProfile :=
  (users.filter (fun u => u.username == strLower uname)).map (fun u =>
    let subscribers := subs.filter (fun s => s.channel == u._id)
    let subscribedTo := subs.filter (fun s => s.subscriber == u._id)
    { fullName := u.fullName
      username := u.username
      subscribersCount := subscribers.length
      channelsSubscribedToCount := subscribedTo.length
      isSubscribed :=
        match viewer with
        | some v => (subscribers.map (fun s => s.subscriber)).contains v
        | none => false
      avatar := u.avatar
      coverImage := u.coverImage
      email := u.email })

/-- `getUserChannelProfile` (user.controller.js lines 604-738): reject a
missing/blank `username` route parameter, run the aggregation, 404 when it
matches no account, otherwise return `channel[0]`. -/
def getUserChannelProfile (db : DB) (subs : List Subscription)
    (viewer : Option Nat) (username : Option String) : Except ApiErr ChannelProfile :=
  match username with
  | none => .error ⟨400, "username is missing"⟩
  | some un =>
      if (strTrim un).isEmpty then .error ⟨400, "username is missing"⟩
      else
        match channelPipeline db.users subs viewer un with
        | [] => .error ⟨404, "channel does not exist"⟩
        | c :: _ => .ok c

/-- One document of the `videos` collection, restricted to the fields the
watch-history pipeline reads: its id and its `owner` reference (`none` when
the field is unset or dangling references are modelled by an id matching no
user). -/
structure Video where
  _id : Nat
  owner : Option Nat
deriving DecidableEq, Repr

/-- The `$project`-ed owner sub-document of the watch-history pipeline
(user.controller.js lines 791-798): fullName, username, avatar. -/
structure OwnerProj where
  fullName : String
  username : String
  avatar : String
deriving DecidableEq, Repr

/-- One entry of the returned watch history: the video id and its owner,
collapsed by `$addFields { owner: { $first: "$owner" } }` to a single
nullable value (`none` when the owner `$lookup` matched nothing). -/
structure HistoryEntry where
  _id : Nat
  owner : Option OwnerProj
deriving DecidableEq, Repr

/-- The inner owner `$lookup` of `getWatchHistory` (user.controller.js lines
784-799): users whose `_id` equals the video's `owner` field, projected to
{fullName, username, avatar}.  A missing `owner` field matches no user. -/
def ownerLookup (users : List Account) (v : Video) : List OwnerProj :=
  (users.filter (fun u =>
      match v.owner with | some o => u._id == o | none => false)).map
    (fun u => ⟨u.fullName, u.username, u.avatar⟩)

/-- The outer `$lookup` of `getWatchHistory` into `videos`
(user.controller.js lines 769-815) with its sub-pipeline.  Per MongoDB
`$lookup` semantics with an array-valued `localField`, the joined array
holds the foreign documents that match ANY element of the local array, in
the foreign collection's own order — it is not reordered to follow the
local array, and duplicate local ids do not duplicate matches. -/
def watchHistoryPipeline (users : List Account) (videos : List Video)
    (wh : List Nat) : List HistoryEntry :=
  (videos.filter (fun v => wh.contains v._id)).map
    (fun v => ⟨v._id, (ownerLookup users v).head?⟩)

/-- `getWatchHistory` (user.controller.js lines 740-855): `$match` the
authenticated user, join the watch history, and return
`user[0].watchHistory`.  If the aggregation matched no user, `user[0]` is
`undefined` and the property access throws (surfaced as a 500). -/
def getWatchHistory (db : DB) (videos : List Video) (uid : Nat) :
    Except ApiErr (List HistoryEntry) :=
  match findById db.users uid with
  | none => .error ⟨500, "TypeError"⟩
  | some u => .ok (watchHistoryPipeline db.users videos u.watchHistory)


/-! ### Concrete fixtures used by witnesses and counterexamples -/

/-- A registered account `alice` with password `pw123` and no live refresh
credential. -/
def aliceAcct : Account :=
  ⟨1, "alice", "alice@x.com", "Alice", "a.png", "", [], ⟨"pw123"⟩, none⟩

/-- A one-account store, clock at 0. -/
def aliceDB : DB := ⟨[aliceAcct], 0⟩

/-- The response of `loginUser aliceDB (some "alice") none "pw123"`. -/
def aliceLoginResp : LoginResponse :=
  ⟨200, some ⟨1, "alice", "alice@x.com", "Alice", "a.png", "", []⟩,
   ⟨1, "alice@x.com", "alice", "Alice", 0⟩, ⟨1, 0⟩⟩

/-- The store after that login: refresh credential ⟨1, 0⟩ live, clock at 1. -/
def aliceDB1 : DB :=
  ⟨[⟨1, "alice", "alice@x.com", "Alice", "a.png", "", [], ⟨"pw123"⟩, some ⟨1, 0⟩⟩], 1⟩

/-- The store after one successful refresh: credential rotated to ⟨1, 1⟩. -/
def aliceDB2 : DB :=
  ⟨[⟨1, "alice", "alice@x.com", "Alice", "a.png", "", [], ⟨"pw123"⟩, some ⟨1, 1⟩⟩], 2⟩

/-- Channel owner `bob`. -/
def bobAcct : Account :=
  ⟨2, "bob", "bob@x.com", "Bob", "b.png", "c.png", [], ⟨"pw"⟩, none⟩

/-- Account `carol`. -/
def carolAcct : Account :=
  ⟨3, "carol", "carol@x.com", "Carol", "c2.png", "", [], ⟨"pw"⟩, none⟩

/-- Three accounts for channel-profile checks. -/
def profileDB : DB := ⟨[aliceAcct, bobAcct, carolAcct], 0⟩

/-- Follow edges: alice→bob, carol→bob, bob→carol. -/
def demoSubs : List Subscription := [⟨1, 2⟩, ⟨3, 2⟩, ⟨2, 3⟩]

/-- A viewer who watched video 20 and then video 10 (stored order [20, 10]). -/
def histViewer : Account :=
  ⟨4, "dav", "dav@x.com", "Dav", "d.png", "", [20, 10], ⟨"pw"⟩, none⟩

/-- Store for the watch-history checks. -/
def histDB : DB := ⟨[histViewer, bobAcct], 0⟩

/-- Video store: video 10 owned by bob, video 20 with a dangling owner
reference (its owner account no longer exists). -/
def histVideos : List Video := [⟨10, some 2⟩, ⟨20, some 99⟩]

/-! ### Helper lemmas about the directory -/

lemma findById_map_of_id (f : Account → Account)
    (hf : ∀ u, (f u)._id = u._id) (l : List Account) (uid : Nat) :
    findById (l.map f) uid = (findById l uid).map f := by
  induction l with
  | nil => rfl
  | cons a t ih =>
    simp only [findById, List.map_cons, List.find?]
    rw [hf a]
    cases h : a._id == uid
    · simpa [findById] using ih
    · rfl

lemma findById_setRefresh (l : List Account) (uid uid' : Nat) (r : Option RefreshToken) :
    findById (setRefresh l uid r) uid' =
      (findById l uid').map
        (fun u => if u._id == uid then { u with refreshToken := r } else u) := by
  unfold setRefresh
  exact findById_map_of_id _ (fun u => by by_cases h : u._id == uid <;> simp [h]) l uid'

lemma findById_id {l : List Account} {uid : Nat} {u : Account}
    (h : findById l uid = some u) : u._id = uid := by
  have := List.find?_some h
  simpa using this

/-! ### Inversion and flow lemmas for the session lifecycle -/

lemma generateTokens_ok_inv {db : DB} {uid : Nat}
    {acc : AccessToken} {rt : RefreshToken} {db1 : DB}
    (h : generateAccessAndRefereshTokens db uid = .ok (acc, rt, db1)) :
    ∃ w, findById db.users uid = some w ∧ w._id = uid ∧
      acc = ⟨w._id, w.email, w.username, w.fullName, db.nonce⟩ ∧
      rt = ⟨w._id, db.nonce⟩ ∧
      db1 = ⟨setRefresh db.users w._id (some ⟨w._id, db.nonce⟩), db.nonce + 1⟩ := by
  unfold generateAccessAndRefereshTokens at h
  split at h
  · simp at h
  next w hw =>
    refine ⟨w, hw, findById_id hw, ?_⟩
    simp only [Except.ok.injEq, Prod.mk.injEq] at h
    obtain ⟨h1, h2, h3⟩ := h
    exact ⟨h1.symm, h2.symm, h3.symm⟩

lemma loginUser_ok_inv {db : DB} {username email : Option String} {password : String}
    {resp : LoginResponse} {db1 : DB}
    (h : loginUser db username email password = .ok (resp, db1)) :
    ∃ w, findById db.users w._id = some w ∧
      resp.status = 200 ∧
      resp.refreshToken = ⟨w._id, db.nonce⟩ ∧
      resp.accessToken = ⟨w._id, w.email, w.username, w.fullName, db.nonce⟩ ∧
      resp.user = (findById db1.users w._id).map sanitizeUser ∧
      db1 = ⟨setRefresh db.users w._id (some ⟨w._id, db.nonce⟩), db.nonce + 1⟩ := by
  unfold loginUser at h
  split at h
  · simp at h
  split at h
  · simp at h
  next u hu =>
    split at h
    · simp at h
    split at h
    · simp at h
    next acc rt db1' hgen =>
      obtain ⟨w, hw, hid, hacc, hrt, hdb⟩ := generateTokens_ok_inv hgen
      simp only [Except.ok.injEq, Prod.mk.injEq] at h
      obtain ⟨hresp, hdb1⟩ := h
      refine ⟨w, by rw [hid]; exact hw, ?_, ?_, ?_, ?_, ?_⟩
      · rw [← hresp]
      · rw [← hresp]; exact hrt
      · rw [← hresp]; exact hacc
      · rw [← hresp]; rw [← hdb1, hid]
      · rw [← hdb1]; exact hdb

lemma refresh_ok_of_stored {db : DB} {t : RefreshToken} {w : Account}
    (hfind : findById db.users t._id = some w)
    (hstored : w.refreshToken = some t) :
    refreshAccessToken db (some (.signed t)) =
      .ok (⟨200, ⟨w._id, w.email, w.username, w.fullName, db.nonce⟩, none⟩,
           ⟨setRefresh db.users w._id (some ⟨w._id, db.nonce⟩), db.nonce + 1⟩) := by
  have hid : w._id = t._id := findById_id hfind
  have hfind' : findById db.users w._id = some w := by rw [hid]; exact hfind
  simp only [refreshAccessToken, refreshTryBody, generateAccessAndRefereshTokens,
    hfind, hstored, hfind']
  simp

lemma refresh_stale_of_mismatch {db : DB} {t : RefreshToken} {w : Account}
    (hfind : findById db.users t._id = some w)
    (hne : w.refreshToken ≠ some t) :
    refreshAccessToken db (some (.signed t)) =
      .error ⟨401, "Refresh token is expired or used"⟩ := by
  have hbne : (some t != w.refreshToken) = true := by
    simp only [bne_iff_ne, ne_eq]
    exact fun hc => hne hc.symm
  have hmsg : ("Refresh token is expired or used".isEmpty) = false := by decide
  simp only [refreshAccessToken, refreshTryBody, hfind, hbne, if_true, hmsg,
    Bool.false_eq_true, if_false]

/-! ### Claim theorems -/

/-- C1: after a successful `Login`, a `Refresh` presenting the refresh
credential the login issued succeeds exactly once: the first such refresh
returns status 200 (and rotates the stored credential), and a second
refresh presenting the same now-stale credential fails with the
stale-or-reused rejection `ApiError(401, "Refresh token is expired or
used")`, because every successful login or refresh overwrites the stored
refresh-credential value and `refreshAccessToken` requires equality between
the incoming credential and the stored value. -/
theorem login_refresh_single_use
    (db : DB) (username email : Option String) (password : String)
    (resp : LoginResponse) (db1 : DB)
    (hlogin : loginUser db username email password = .ok (resp, db1)) :
    ∃ resp2 db2,
      refreshAccessToken db1 (some (.signed resp.refreshToken)) = .ok (resp2, db2) ∧
      resp2.status = 200 ∧
      refreshAccessToken db2 (some (.signed resp.refreshToken)) =
        .error ⟨401, "Refresh token is expired or used"⟩ := by
  obtain ⟨w, hw, -, hrt, -, -, hdb1⟩ := loginUser_ok_inv hlogin
  subst hdb1
  rw [hrt]
  have hfind1 : findById (setRefresh db.users w._id (some ⟨w._id, db.nonce⟩)) w._id
      = some { w with refreshToken := some ⟨w._id, db.nonce⟩ } := by
    rw [findById_setRefresh, hw]; simp
  have h1 := @refresh_ok_of_stored
    ⟨setRefresh db.users w._id (some ⟨w._id, db.nonce⟩), db.nonce + 1⟩
    ⟨w._id, db.nonce⟩
    { w with refreshToken := some ⟨w._id, db.nonce⟩ } hfind1 rfl
  refine ⟨_, _, h1, rfl, ?_⟩
  have hfind2 : findById (setRefresh (setRefresh db.users w._id (some ⟨w._id, db.nonce⟩))
        w._id (some ⟨w._id, db.nonce + 1⟩)) w._id
      = some { w with refreshToken := some ⟨w._id, db.nonce + 1⟩ } := by
    rw [findById_setRefresh, hfind1]; simp
  exact refresh_stale_of_mismatch hfind2 (by intro hc; simp at hc)

/-- C1 witness: the scenario at the concrete alice fixture. -/
theorem login_refresh_single_use_witness :
    ∃ resp2 db2,
      refreshAccessToken aliceDB1 (some (.signed aliceLoginResp.refreshToken)) =
        .ok (resp2, db2) ∧
      resp2.status = 200 ∧
      refreshAccessToken db2 (some (.signed aliceLoginResp.refreshToken)) =
        .error ⟨401, "Refresh token is expired or used"⟩ :=
  login_refresh_single_use aliceDB (some "alice") none "pw123" aliceLoginResp aliceDB1
    (by decide)

/-- C2 (code bug): at the alice fixture, a refresh with the live credential
⟨1, 0⟩ succeeds and rotates the stored credential to ⟨1, 1⟩, but the
response's `refreshToken` slot is `none`: the handler destructures
`newRefreshToken` from a function whose returned field is named
`refreshToken`, so the newly minted refresh credential is stored yet never
returned — the returned value does not equal the stored value, and the
client is left holding only the now-stale ⟨1, 0⟩, which the next refresh
rejects. -/
theorem refresh_response_omits_new_token :
    refreshAccessToken aliceDB1 (some (.signed ⟨1, 0⟩)) =
      .ok (⟨200, ⟨1, "alice@x.com", "alice", "Alice", 1⟩, none⟩, aliceDB2) ∧
    (findById aliceDB2.users 1).map Account.refreshToken = some (some ⟨1, 1⟩) ∧
    (none : Option RefreshToken) ≠ some ⟨1, 1⟩ ∧
    refreshAccessToken aliceDB2 (some (.signed ⟨1, 0⟩)) =
      .error ⟨401, "Refresh token is expired or used"⟩ := by decide

/-- C3: logout unsets the stored refresh credential, so a read of the field
yields null, and a refresh presenting any credential whose subject is that
account — in particular the credential that was valid before the logout —
fails with the stale-or-reused rejection. -/
theorem logout_invalidates_refresh
    (db : DB) (uid : Nat) (u : Account) (t : RefreshToken)
    (hfind : findById db.users uid = some u)
    (_hvalid : u.refreshToken = some t)
    (hsub : t._id = uid) :
    (findById (logoutUser db uid).2.users uid).map Account.refreshToken = some none ∧
    refreshAccessToken (logoutUser db uid).2 (some (.signed t)) =
      .error ⟨401, "Refresh token is expired or used"⟩ := by
  have hfind2 : findById (setRefresh db.users uid none) uid
      = some { u with refreshToken := none } := by
    rw [findById_setRefresh, hfind]
    simp [findById_id hfind]
  constructor
  · show (findById (setRefresh db.users uid none) uid).map Account.refreshToken = some none
    rw [hfind2]
    rfl
  · have hfind3 : findById (setRefresh db.users uid none) t._id
        = some { u with refreshToken := none } := by
      rw [hsub]; exact hfind2
    exact refresh_stale_of_mismatch hfind3 (by simp)

/-- C3 witness: logging alice out after her login invalidates ⟨1, 0⟩. -/
theorem logout_invalidates_refresh_witness :
    (findById (logoutUser aliceDB1 1).2.users 1).map Account.refreshToken = some none ∧
    refreshAccessToken (logoutUser aliceDB1 1).2 (some (.signed ⟨1, 0⟩)) =
      .error ⟨401, "Refresh token is expired or used"⟩ :=
  logout_invalidates_refresh aliceDB1 1
    ⟨1, "alice", "alice@x.com", "Alice", "a.png", "", [], ⟨"pw123"⟩, some ⟨1, 0⟩⟩
    ⟨1, 0⟩ (by decide) rfl rfl

/-- C4 counterexample: two of the failure causes the claim names — a
missing refresh credential and a stale/reused refresh credential — reach
the caller with different messages, so the unauthorized signal is not
identical across causes and a caller can distinguish them. -/
theorem unauthorized_messages_differ :
    refreshAccessToken aliceDB none = .error ⟨401, "Unauthorized request"⟩ ∧
    refreshAccessToken aliceDB (some (.signed ⟨1, 5⟩)) =
      .error ⟨401, "Refresh token is expired or used"⟩ ∧
    ("Unauthorized request" : String) ≠ "Refresh token is expired or used" := by
  decide

/-- C4 amended: every failure of `refreshAccessToken` and every failure of
`verifyJWT` carries the same HTTP status 401 — one uniform status class,
with no 5xx storage/crypto detail — but the attached message carries the
cause-specific reason, so causes remain distinguishable by message. -/
theorem auth_failures_all_401
    (db db2 : DB) (incoming : Option RefreshCred) (cookieToken authHeader : Option String)
    (e e2 : ApiErr)
    (h : refreshAccessToken db incoming = .error e)
    (h2 : verifyJWT db2 cookieToken authHeader = .error e2) :
    e.status = 401 ∧ e2.status = 401 := by
  constructor
  · unfold refreshAccessToken at h
    split at h
    · simp only [Except.error.injEq] at h
      subst h; rfl
    · split at h
      · simp only [Except.error.injEq] at h
        subst h; rfl
      · simp at h
  · unfold verifyJWT at h2
    split at h2
    · simp only [Except.error.injEq] at h2
      subst h2; rfl
    · simp at h2

/-- C4 amended witness: two concrete failures, both status 401. -/
theorem auth_failures_all_401_witness :
    (⟨401, "Unauthorized request"⟩ : ApiErr).status = 401 ∧
    (⟨401, "Unauthorized request - No token found"⟩ : ApiErr).status = 401 :=
  auth_failures_all_401 aliceDB aliceDB none none none
    ⟨401, "Unauthorized request"⟩ ⟨401, "Unauthorized request - No token found"⟩
    (by decide) (by decide)

lemma find?_eq_filter_head {α : Type} (p : α → Bool) (l : List α) :
    l.find? p = (l.filter p).head? := by
  induction l with
  | nil => rfl
  | cons a t ih =>
    cases h : p a
    · rw [List.find?_cons_of_neg, List.filter_cons_of_neg, ih] <;> simp [h]
    · rw [List.find?_cons_of_pos, List.filter_cons_of_pos] <;> simp [h]

lemma isEmpty_false_of_ne {s : String} (h : s ≠ "") : s.isEmpty = false := by
  cases hE : s.isEmpty
  · rfl
  · exact absurd ((String.isEmpty_iff s).mp hE) h

/-- C5: `getUserChannelProfile` matches the handle case-insensitively (two
non-blank route parameters with the same lowercasing give the same result);
for the matched account it returns `subscribersCount` equal to the number of
subscription rows whose `channel` is the target,
`channelsSubscribedToCount` equal to the number of rows whose `subscriber`
is the target, and `isSubscribed` true iff a row exists with the target as
`channel` and the viewer as `subscriber`; and it fails 404 when no account
matches the lowercased handle. -/
theorem channel_profile_correct
    (db : DB) (subs : List Subscription) (viewer : Nat) (un un2 : String)
    (hblank : strTrim un ≠ "") (hblank2 : strTrim un2 ≠ "")
    (hsame : strLower un = strLower un2) :
    (getUserChannelProfile db subs (some viewer) (some un) =
       getUserChannelProfile db subs (some viewer) (some un2)) ∧
    (∀ u, db.users.find? (fun v => v.username == strLower un) = some u →
       ∃ prof, getUserChannelProfile db subs (some viewer) (some un) = .ok prof ∧
         prof.subscribersCount = subs.countP (fun s => s.channel == u._id) ∧
         prof.channelsSubscribedToCount = subs.countP (fun s => s.subscriber == u._id) ∧
         (prof.isSubscribed = true ↔
           ∃ s ∈ subs, s.channel = u._id ∧ s.subscriber = viewer)) ∧
    (db.users.find? (fun v => v.username == strLower un) = none →
       getUserChannelProfile db subs (some viewer) (some un) =
         .error ⟨404, "channel does not exist"⟩) := by
  have hE : (strTrim un).isEmpty = false := isEmpty_false_of_ne hblank
  have hE2 : (strTrim un2).isEmpty = false := isEmpty_false_of_ne hblank2
  refine ⟨?_, ?_, ?_⟩
  · have hpipe : channelPipeline db.users subs (some viewer) un =
        channelPipeline db.users subs (some viewer) un2 := by
      unfold channelPipeline
      rw [hsame]
    simp only [getUserChannelProfile, hE, hE2, Bool.false_eq_true, if_false, hpipe]
  · intro u hu
    rw [find?_eq_filter_head] at hu
    cases hf : db.users.filter (fun v => v.username == strLower un) with
    | nil => rw [hf] at hu; simp at hu
    | cons a tl =>
      rw [hf] at hu
      simp only [List.head?_cons, Option.some.injEq] at hu
      subst hu
      refine ⟨{ fullName := a.fullName, username := a.username,
                subscribersCount := (subs.filter (fun s => s.channel == a._id)).length,
                channelsSubscribedToCount :=
                  (subs.filter (fun s => s.subscriber == a._id)).length,
                isSubscribed := ((subs.filter (fun s => s.channel == a._id)).map
                    (fun s => s.subscriber)).contains viewer,
                avatar := a.avatar, coverImage := a.coverImage, email := a.email },
              ?_, ?_, ?_, ?_⟩
      · simp only [getUserChannelProfile, channelPipeline, hE, Bool.false_eq_true, if_false]
        rw [hf]
        simp only [List.map_cons]
      · simp only [List.countP_eq_length_filter]
      · simp only [List.countP_eq_length_filter]
      · simp only [List.elem_iff, List.mem_map, List.mem_filter, beq_iff_eq]
        constructor
        · rintro ⟨s, ⟨hs, hc⟩, hv⟩
          exact ⟨s, hs, hc, hv⟩
        · rintro ⟨s, hs, hc, hv⟩
          exact ⟨s, ⟨hs, hc⟩, hv⟩
  · intro hu
    rw [find?_eq_filter_head] at hu
    cases hf : db.users.filter (fun v => v.username == strLower un) with
    | nil =>
      simp only [getUserChannelProfile, channelPipeline, hE, Bool.false_eq_true, if_false]
      rw [hf]
      simp only [List.map_nil]
    | cons a tl => rw [hf] at hu; simp at hu

/-- C5 witness: case-insensitive lookup of bob, and 404 for an unknown
handle, at the concrete fixture. -/
theorem channel_profile_correct_witness :
    getUserChannelProfile profileDB demoSubs (some 1) (some "BoB") =
      getUserChannelProfile profileDB demoSubs (some 1) (some "bob") ∧
    getUserChannelProfile profileDB demoSubs (some 1) (some "zed") =
      .error ⟨404, "channel does not exist"⟩ :=
  ⟨(channel_profile_correct profileDB demoSubs 1 "BoB" "bob"
      (by decide) (by decide) (by decide)).1,
   (channel_profile_correct profileDB demoSubs 1 "zed" "zed"
      (by decide) (by decide) rfl).2.2 (by decide)⟩

/-- C6 counterexample: at the concrete fixture the viewer's stored
watched-id sequence is [20, 10], but `getWatchHistory` returns the entries
in the video store's order [10, 20]: the `$lookup` join does not reorder
its result to follow the local array, so the returned order does not
mirror the stored watch order. -/
theorem watch_history_order_counterexample :
    getWatchHistory histDB histVideos 4 =
      .ok [⟨10, some ⟨"Bob", "bob", "b.png"⟩⟩, ⟨20, none⟩] ∧
    (findById histDB.users 4).map Account.watchHistory = some [20, 10] ∧
    ([⟨10, some ⟨"Bob", "bob", "b.png"⟩⟩, ⟨20, none⟩] : List HistoryEntry).map
        HistoryEntry._id ≠ [20, 10] := by
  decide

lemma map_id_filter_comm (videos : List Video) (wh : List Nat) :
    (videos.filter (fun v => wh.contains v._id)).map Video._id =
      (videos.map Video._id).filter (fun i => wh.contains i) := by
  induction videos with
  | nil => rfl
  | cons v t ih =>
    by_cases h : v._id ∈ wh <;>
      simpa [List.filter_cons, List.map_cons, h] using ih

/-- C6 amended: the entries of `getWatchHistory` appear in the order the
matching video records appear in the video store (ids = the store's id
sequence filtered by membership in the viewer's watched-id list, so
duplicates in the stored sequence are collapsed and deleted videos are
omitted); each entry's owner is a single nullable value — `none`, or the
{fullName, username, avatar} projection of a stored account — never a
one-element collection; and a viewer with no history gets the empty
sequence, not an error. -/
theorem watch_history_store_order
    (db : DB) (videos : List Video) (uid : Nat) (u : Account)
    (entries : List HistoryEntry)
    (hfind : findById db.users uid = some u)
    (hrun : getWatchHistory db videos uid = .ok entries) :
    entries.map HistoryEntry._id =
      (videos.map Video._id).filter (fun i => u.watchHistory.contains i) ∧
    (∀ e ∈ entries, e.owner = none ∨
      ∃ a ∈ db.users, e.owner = some ⟨a.fullName, a.username, a.avatar⟩) ∧
    (u.watchHistory = [] → entries = []) := by
  unfold getWatchHistory at hrun
  rw [hfind] at hrun
  simp only [Except.ok.injEq] at hrun
  subst hrun
  refine ⟨?_, ?_, ?_⟩
  · unfold watchHistoryPipeline
    rw [List.map_map]
    exact map_id_filter_comm videos u.watchHistory
  · intro e he
    unfold watchHistoryPipeline at he
    simp only [List.mem_map] at he
    obtain ⟨v, _, rfl⟩ := he
    cases ho : (ownerLookup db.users v).head? with
    | none => exact Or.inl (by simp [ho])
    | some o =>
      refine Or.inr ?_
      have hmem : o ∈ ownerLookup db.users v := by
        cases hl : ownerLookup db.users v with
        | nil => rw [hl] at ho; simp at ho
        | cons a t =>
          rw [hl] at ho
          simp only [List.head?_cons, Option.some.injEq] at ho
          subst ho
          exact List.mem_cons_self a t
      unfold ownerLookup at hmem
      simp only [List.mem_map, List.mem_filter] at hmem
      obtain ⟨a, ⟨ha, _⟩, rfl⟩ := hmem
      exact ⟨a, ha, by simp [ho]⟩
  · intro h
    unfold watchHistoryPipeline
    rw [h]
    simp

/-- C6 amended witness: at the concrete fixture the returned ids follow the
video store's order, owners are nullable singletons, and the empty-history
implication holds vacuously. -/
theorem watch_history_store_order_witness :
    (([⟨10, some ⟨"Bob", "bob", "b.png"⟩⟩, ⟨20, none⟩] : List HistoryEntry).map
        HistoryEntry._id =
      (histVideos.map Video._id).filter (fun i => histViewer.watchHistory.contains i)) ∧
    (∀ e ∈ ([⟨10, some ⟨"Bob", "bob", "b.png"⟩⟩, ⟨20, none⟩] : List HistoryEntry),
      e.owner = none ∨
        ∃ a ∈ histDB.users, e.owner = some ⟨a.fullName, a.username, a.avatar⟩) ∧
    (histViewer.watchHistory = [] →
      ([⟨10, some ⟨"Bob", "bob", "b.png"⟩⟩, ⟨20, none⟩] : List HistoryEntry) = []) :=
  watch_history_store_order histDB histVideos 4 histViewer
    [⟨10, some ⟨"Bob", "bob", "b.png"⟩⟩, ⟨20, none⟩] (by decide) (by decide)

/-- C7: `verifyJWT` takes the access credential from the cookie first — a
non-empty cookie makes the Authorization header irrelevant; when the
cookie is absent it behaves exactly as if the header value with its first
"Bearer " occurrence removed had been the credential (the scheme is
stripped from a well-formed header, as the concrete conjunct shows); when
neither source yields a credential it fails 401 "Unauthorized request - No
token found"; and a verified credential whose subject is missing from the
directory fails 401 as well. -/
theorem auth_gate_source_precedence (db : DB) :
    (∀ c authHeader, c ≠ "" →
       verifyJWT db (some c) authHeader = verifyJWT db (some c) none) ∧
    (∀ authHeader, verifyJWT db none authHeader =
       verifyJWT db (authHeader.map (fun h => jsReplaceFirst h "Bearer " "")) none) ∧
    jsReplaceFirst "Bearer jwtA.7.0" "Bearer " "" = "jwtA.7.0" ∧
    verifyJWT db none none = .error ⟨401, "Unauthorized request - No token found"⟩ ∧
    (∀ s uid, verifyAccessStr s = .ok uid → findById db.users uid = none →
       verifyJWT db (some s) none =
         .error ⟨401, "Invalid Access Token - User not found"⟩) := by
  have hm1 : ("Unauthorized request - No token found".isEmpty) = false := by decide
  have hm2 : ("Invalid Access Token - User not found".isEmpty) = false := by decide
  refine ⟨?_, ?_, by decide, ?_, ?_⟩
  · intro c ah hc
    have hE : c.isEmpty = false := isEmpty_false_of_ne hc
    simp only [verifyJWT, verifyJWTTryBody, jsOrS, hE, Bool.false_eq_true, if_false]
  · intro ah
    cases ah with
    | none => rfl
    | some h =>
      cases hE : (jsReplaceFirst h "Bearer " "").isEmpty <;>
        simp [verifyJWT, verifyJWTTryBody, jsOrS, hE, hm1]
  · simp [verifyJWT, verifyJWTTryBody, jsOrS, hm1]
  · intro s uid hs hfindnone
    have hsne : s ≠ "" := by
      intro hc
      subst hc
      have hev : verifyAccessStr "" = .error "invalid signature" := rfl
      rw [hev] at hs
      simp at hs
    have hE : s.isEmpty = false := isEmpty_false_of_ne hsne
    simp [verifyJWT, verifyJWTTryBody, jsOrS, hE, hs, hfindnone, hm2]

/-- C7 witness: a present cookie wins regardless of the header, and a valid
credential with an unknown subject is rejected 401, at the fixture. -/
theorem auth_gate_source_precedence_witness :
    verifyJWT aliceDB (some "jwtA.1.0") (some "Bearer zzz") =
      verifyJWT aliceDB (some "jwtA.1.0") none ∧
    verifyJWT aliceDB (some "jwtA.9.0") none =
      .error ⟨401, "Invalid Access Token - User not found"⟩ :=
  ⟨(auth_gate_source_precedence aliceDB).1 "jwtA.1.0" (some "Bearer zzz") (by decide),
   (auth_gate_source_precedence aliceDB).2.2.2.2 "jwtA.9.0" 9 (by decide) (by decide)⟩

/-- C8: on successful authentication, the exposed identity is the
"-password -refreshToken" projection of a stored account, and that
projection is insensitive to the password hash and the stored refresh
credential — neither can reach downstream consumers; the account
projection a successful login returns is the same sanitized projection of
a stored account. -/
theorem auth_identity_sanitized
    (db : DB) (cookieToken authHeader : Option String) (ident : PublicUser)
    (hgate : verifyJWT db cookieToken authHeader = .ok ident)
    (db2 : DB) (username email : Option String) (password : String)
    (resp : LoginResponse) (db3 : DB)
    (hlogin : loginUser db2 username email password = .ok (resp, db3)) :
    (∃ a ∈ db.users, ident = sanitizeUser a) ∧
    (∃ a ∈ db3.users, resp.user = some (sanitizeUser a)) ∧
    (∀ a p r, sanitizeUser { a with password := p, refreshToken := r } = sanitizeUser a) := by
  refine ⟨?_, ?_, fun a p r => rfl⟩
  · unfold verifyJWT at hgate
    split at hgate
    · simp at hgate
    next u0 heq =>
      simp only [Except.ok.injEq] at hgate
      subst hgate
      unfold verifyJWTTryBody at heq
      split at heq
      · simp at heq
      next tok =>
        split at heq
        · simp at heq
        split at heq
        · simp at heq
        next uid hvf =>
          split at heq
          · simp at heq
          next a hfa =>
            simp only [Except.ok.injEq] at heq
            exact ⟨a, List.mem_of_find?_eq_some hfa, heq.symm⟩
  · obtain ⟨w, hw, -, -, -, huser, hdb⟩ := loginUser_ok_inv hlogin
    subst hdb
    have hfind3 : findById (setRefresh db2.users w._id (some ⟨w._id, db2.nonce⟩)) w._id
        = some { w with refreshToken := some ⟨w._id, db2.nonce⟩ } := by
      rw [findById_setRefresh, hw]
      simp
    rw [hfind3] at huser
    exact ⟨_, List.mem_of_find?_eq_some hfind3, huser⟩

/-- C8 witness: at the fixture, both the gate identity and the login
projection are sanitized projections of stored accounts. -/
theorem auth_identity_sanitized_witness :
    (∃ a ∈ aliceDB.users,
       (⟨1, "alice", "alice@x.com", "Alice", "a.png", "", []⟩ : PublicUser) =
         sanitizeUser a) ∧
    (∃ a ∈ aliceDB1.users, aliceLoginResp.user = some (sanitizeUser a)) ∧
    (∀ a p r, sanitizeUser { a with password := p, refreshToken := r } = sanitizeUser a) :=
  auth_identity_sanitized aliceDB (some "jwtA.1.0") none
    ⟨1, "alice", "alice@x.com", "Alice", "a.png", "", []⟩ (by decide)
    aliceDB (some "alice") none "pw123" aliceLoginResp aliceDB1 (by decide)

/-- C9: `changeCurrentPassword` re-verifies the old password and fails 400
"Invalid old password" when it does not match the stored hash (performing
no write — the operation only returns a changed store on success); on
success it replaces the stored hash with the hash of the new password
while leaving every account's stored refresh credential, all other fields,
and the clock unchanged. -/
theorem change_password_checks_old
    (db : DB) (uid : Nat) (u : Account) (oldPw newPw : String)
    (hfind : findById db.users uid = some u) :
    (bcryptCompare oldPw u.password = false →
       changeCurrentPassword db uid oldPw newPw =
         .error ⟨400, "Invalid old password"⟩) ∧
    (bcryptCompare oldPw u.password = true →
       ∃ db2, changeCurrentPassword db uid oldPw newPw = .ok (200, db2) ∧
         findById db2.users uid = some { u with password := ⟨newPw⟩ } ∧
         db2.users.map Account.refreshToken = db.users.map Account.refreshToken ∧
         db2.nonce = db.nonce) := by
  constructor
  · intro h
    unfold changeCurrentPassword
    rw [hfind]
    simp [h]
  · intro h
    refine ⟨⟨db.users.map (fun v =>
        if v._id == uid then { v with password := ⟨newPw⟩ } else v), db.nonce⟩,
      ?_, ?_, ?_, rfl⟩
    · unfold changeCurrentPassword
      rw [hfind]
      simp [h]
    · show findById (db.users.map (fun v =>
          if v._id == uid then { v with password := ⟨newPw⟩ } else v)) uid = _
      rw [findById_map_of_id _ (fun v => by by_cases hv : v._id == uid <;> simp [hv]),
        hfind]
      simp [findById_id hfind]
    · show (db.users.map (fun v =>
          if v._id == uid then { v with password := ⟨newPw⟩ } else v)).map
            Account.refreshToken = _
      rw [List.map_map]
      exact List.map_congr_left (fun v _ => by by_cases hv : v._id = uid <;> simp [hv])

/-- C9 witness: wrong old password is rejected; the right one replaces the
hash and leaves the refresh credential untouched, at the fixture. -/
theorem change_password_checks_old_witness :
    changeCurrentPassword aliceDB 1 "bad" "neu" = .error ⟨400, "Invalid old password"⟩ ∧
    ∃ db2, changeCurrentPassword aliceDB 1 "pw123" "neu" = .ok (200, db2) ∧
      findById db2.users 1 = some { aliceAcct with password := ⟨"neu"⟩ } ∧
      db2.users.map Account.refreshToken = aliceDB.users.map Account.refreshToken ∧
      db2.nonce = aliceDB.nonce :=
  ⟨(change_password_checks_old aliceDB 1 aliceAcct "bad" "neu" (by decide)).1 (by decide),
   (change_password_checks_old aliceDB 1 aliceAcct "pw123" "neu" (by decide)).2 (by decide)⟩

lemma fieldTrimsEmpty_eq_true_iff (o : Option String) :
    fieldTrimsEmpty o = true ↔ ∃ s, o = some s ∧ strTrim s = "" := by
  cases o with
  | none => simp [fieldTrimsEmpty]
  | some s => simp [fieldTrimsEmpty]

/-- C10: the "All fields are required" guard of `registerUser` fires only
when a supplied field trims to the empty string — a request with an absent
(undefined) field passes this guard, because `field?.trim() === ""` is
false for an absent field: with no fullName the guard can only fire
because of one of the other, present, fields; a concrete request with
fullName absent and the rest non-blank passes; any present all-whitespace
field fires the guard; and whenever the guard fires, some field is present
and trims empty. -/
theorem register_guard_absent_field_passes :
    (∀ e u p, registerFieldsCheck none e u p = true →
       fieldTrimsEmpty e = true ∨ fieldTrimsEmpty u = true ∨ fieldTrimsEmpty p = true) ∧
    registerFieldsCheck none (some "e@x") (some "u1") (some "pw") = false ∧
    (∀ f e u p s, f = some s → strTrim s = "" → registerFieldsCheck f e u p = true) ∧
    (∀ f e u p, registerFieldsCheck f e u p = true →
       ∃ o s, (o = f ∨ o = e ∨ o = u ∨ o = p) ∧ o = some s ∧ strTrim s = "") := by
  refine ⟨?_, by decide, ?_, ?_⟩
  · intro e u p h
    simp only [registerFieldsCheck, List.any_cons, List.any_nil, Bool.or_false,
      Bool.or_eq_true] at h
    rcases h with h | h | h | h
    · simp [fieldTrimsEmpty] at h
    · exact Or.inl h
    · exact Or.inr (Or.inl h)
    · exact Or.inr (Or.inr h)
  · intro f e u p s hf hs
    subst hf
    simp [registerFieldsCheck, fieldTrimsEmpty, hs]
  · intro f e u p h
    simp only [registerFieldsCheck, List.any_cons, List.any_nil, Bool.or_false,
      Bool.or_eq_true] at h
    rcases h with h | h | h | h
    · obtain ⟨s, hs, ht⟩ := (fieldTrimsEmpty_eq_true_iff f).mp h
      exact ⟨f, s, Or.inl rfl, hs, ht⟩
    · obtain ⟨s, hs, ht⟩ := (fieldTrimsEmpty_eq_true_iff e).mp h
      exact ⟨e, s, Or.inr (Or.inl rfl), hs, ht⟩
    · obtain ⟨s, hs, ht⟩ := (fieldTrimsEmpty_eq_true_iff u).mp h
      exact ⟨u, s, Or.inr (Or.inr (Or.inl rfl)), hs, ht⟩
    · obtain ⟨s, hs, ht⟩ := (fieldTrimsEmpty_eq_true_iff p).mp h
      exact ⟨p, s, Or.inr (Or.inr (Or.inr rfl)), hs, ht⟩

/-- C10 witness: a present all-whitespace fullName fires the guard (so the
guard is reachable), via the theorem's third conjunct. -/
theorem register_guard_absent_field_passes_witness :
    registerFieldsCheck (some " ") (some "e@x") (some "u1") (some "pw") = true :=
  register_guard_absent_field_passes.2.2.1 (some " ") (some "e@x") (some "u1") (some "pw")
    " " rfl (by decide)
